import Mathlib

/-!
Shallow embedding of the resilient HTTP client core of the lime-web-admin
dashboard: the `ApiService` fetch wrapper (URL building, header building,
timeout/retry control flow, error classification), the authentication
façade (`AuthService.login` / `logout` / `validateToken`), the auth React
context reaction, and the API helper utilities (`handleApiError`,
`buildQueryString`) together with the orchestrator façade's `getServers`
endpoint construction.

JavaScript runtime values that flow through the untyped parts of the code
(response bodies, `||` defaulting, truthiness tests) are modelled by the
`Jval` type below; JS strings are modelled by Lean `String` (and, for the
character-level slicing in `buildURL`, by `List Char`).
-/

namespace LimeWebAdmin

/-- Model of a dynamically typed JavaScript value as it appears in decoded
response bodies and loosely typed fields. -/
inductive Jval where
  | jundef : Jval
  | jnull : Jval
  | jbool : Bool → Jval
  | jnum : Int → Jval
  | jstr : String → Jval
  | jarr : List Jval → Jval
  | jobj : List (String × Jval) → Jval

namespace Jval

/-- JavaScript truthiness: `undefined`, `null`, `false`, `0` and the empty
string are falsy; objects and arrays are always truthy. -/
def truthy : Jval → Bool
  | jundef => false
  | jnull => false
  | jbool b => b
  | jnum n => n != 0
  | jstr s => s ≠ ""
  | jarr _ => true
  | jobj _ => true

/-- Property access `v?.k`: defined fields of an object are looked up,
anything else yields `undefined` (optional chaining short-circuits
`null`/`undefined`; primitives have no such own property). -/
def getField : Jval → String → Jval
  | jobj fields, k =>
    match fields.find? (fun p => p.1 = k) with
    | some p => p.2
    | none => jundef
  | _, _ => jundef

end Jval

/-- JavaScript logical or `a || b`: yields `a` when `a` is truthy,
otherwise `b`. -/
def jsOr (a b : Jval) : Jval :=
  if a.truthy then a else b

/-- JavaScript logical or on an optional numeric config field against a
default: `x || d` where an absent field reads as `undefined` and `0` is
falsy, so both fall through to the default. -/
def jsOrNat (x : Option Nat) (d : Nat) : Nat :=
  match x with
  | some n => if n ≠ 0 then n else d
  | none => d

mutual

/-- JavaScript `String(value)` coercion for the values fed to
`URLSearchParams.append` (arrays join their elements with commas). -/
def jsToString : Jval → String
  | Jval.jundef => "undefined"
  | Jval.jnull => "null"
  | Jval.jbool b => if b then "true" else "false"
  | Jval.jnum n => toString n
  | Jval.jstr s => s
  | Jval.jarr l => jsToStringList l
  | Jval.jobj _ => "[object Object]"

/-- Comma-joined stringification of an array's elements. -/
def jsToStringList : List Jval → String
  | [] => ""
  | [v] => jsToString v
  | v :: w :: rest => jsToString v ++ "," ++ jsToStringList (w :: rest)

end

/-! ### ApiService.buildURL

The source slices JS strings one character at a time:
`endpoint.startsWith('/') ? endpoint.slice(1) : endpoint` and
`baseURL.endsWith('/') ? baseURL.slice(0, -1) : baseURL`, then joins with
a single slash. We model the strings as character lists. -/

/-- JS `s.startsWith('/')`: the first character is a slash. -/
def startsWithSlash (s : List Char) : Bool :=
  s.head? = some '/'

/-- JS `s.endsWith('/')`: the last character is a slash. -/
def endsWithSlash (s : List Char) : Bool :=
  s.getLast? = some '/'

/-- Embedding of `ApiService.buildURL`: strip one leading slash from the
endpoint, one trailing slash from the base URL, and join with a slash. -/
def buildURL (baseURL endpoint : List Char) : List Char :=
  let cleanEndpoint := if startsWithSlash endpoint then endpoint.tail else endpoint
  let cleanBaseURL := if endsWithSlash baseURL then baseURL.dropLast else baseURL
  cleanBaseURL ++ ['/'] ++ cleanEndpoint

/-! ### Error model and ApiService.handleError

A caught JS exception is modelled by `ErrObj`: its `name`, its `message`,
and the `response` property that `makeRequest` attaches to HTTP errors. -/

/-- The `response` property attached to an HTTP error: the response status
and the decoded body. -/
structure ErrResponse where
  status : Nat
  data : Jval

/-- A JS exception as caught in `makeRequest`: name (only `AbortError` is
inspected), message, and an optional attached `response` property. -/
structure ErrObj where
  name : String
  message : String
  response : Option ErrResponse

/-- The `ApiError` descriptor thrown to callers. `message` and `code` are
`Jval` because the source reads them untyped from the response body. -/
structure ApiError where
  message : Jval
  status : Nat
  code : Jval
  details : Option Jval

/-- The `ApiResponse` success envelope returned to callers. -/
structure ApiResponse where
  data : Jval
  status : Nat
  success : Bool
  message : Jval

/-- Embedding of `ApiService.handleError`: abort errors become `TIMEOUT`
(408); errors with no `response` become `NETWORK_ERROR` (status 0); errors
with a `response` pass through `status || 500`, the body's
`message`/`code` with fallbacks, and the body as `details`. -/
def handleError (error : ErrObj) : ApiError :=
  if error.name = "AbortError" then
    { message := .jstr "Request timeout", status := 408, code := .jstr "TIMEOUT",
      details := none }
  else
    match error.response with
    | none =>
      { message := jsOr (.jstr error.message) (.jstr "Network error"), status := 0,
        code := .jstr "NETWORK_ERROR", details := none }
    | some r =>
      { message := jsOr (r.data.getField "message")
          (jsOr (.jstr error.message) (.jstr "API Error")),
        status := if r.status ≠ 0 then r.status else 500,
        code := jsOr (r.data.getField "code") (.jstr "API_ERROR"),
        details := some r.data }

/-! ### ApiService.makeRequest

The network is an oracle `fetch : Nat → FetchOutcome` giving, for each
attempt number, what the `fetch` call of that attempt does. Bodies arrive
already decoded (the JSON/text branch on the content type). -/

/-- Outcome of one `fetch` call: a response with a status and decoded
body, an abort (the timeout fired first), or a network-level rejection
with no response at all. -/
inductive FetchOutcome where
  | response (status : Nat) (data : Jval)
  | abort
  | networkFailure (message : String)

/-- One attempt of the `try` block of `makeRequest`: a 2xx response (the
`response.ok` range) yields the success envelope; a non-ok response throws
an error object carrying the status and decoded body; an abort or network
failure throws the corresponding exception. -/
def attemptOnce (fetch : Nat → FetchOutcome) (attempt : Nat) : Except ErrObj ApiResponse :=
  match fetch attempt with
  | .response status data =>
    if 200 ≤ status ∧ status ≤ 299 then
      .ok { data := data, status := status, success := true,
            message := data.getField "message" }
    else
      .error { name := "Error", message := "HTTP " ++ toString status,
               response := some { status := status, data := data } }
  | .abort =>
    .error { name := "AbortError", message := "The operation was aborted.",
             response := none }
  | .networkFailure msg =>
    .error { name := "TypeError", message := msg, response := none }

/-- The error-shape part of the retry test:
`errorWithResponse.name === 'AbortError' ||
 (errorWithResponse.response?.status && errorWithResponse.response.status >= 500)`
(a missing response or a status of 0 is falsy). -/
def isRetryableError (e : ErrObj) : Bool :=
  e.name = "AbortError" ||
    (match e.response with
     | some r => decide (r.status ≠ 0) && decide (500 ≤ r.status)
     | none => false)

/-- The full retry test of `makeRequest`:
`attempt < (config?.retries || this.retries) && (...)`. -/
def shouldRetry (retries attempt : Nat) (e : ErrObj) : Bool :=
  decide (attempt < retries) && isRetryableError e

/-- Observable result of a `makeRequest` run: the outcome (thrown
`ApiError` or returned envelope), the index of the last attempt made
(equal to the total number of attempts, attempts being numbered from 1),
and the list of sleep durations performed before retries, in order. -/
structure ReqResult where
  outcome : Except ApiError ApiResponse
  attempts : Nat
  sleeps : List Nat

/-- Embedding of the recursion of `ApiService.makeRequest`: run the
attempt; on success return the envelope; on a caught error retry after
sleeping `this.retryDelay * attempt` when `shouldRetry` holds, otherwise
throw `handleError e`. -/
def makeRequestAux (retries retryDelay : Nat) (fetch : Nat → FetchOutcome)
    (attempt : Nat) : ReqResult :=
  match attemptOnce fetch attempt with
  | .ok env => { outcome := .ok env, attempts := attempt, sleeps := [] }
  | .error e =>
    if h : shouldRetry retries attempt e = true then
      let rest := makeRequestAux retries retryDelay fetch (attempt + 1)
      { outcome := rest.outcome, attempts := rest.attempts,
        sleeps := retryDelay * attempt :: rest.sleeps }
    else
      { outcome := .error (handleError e), attempts := attempt, sleeps := [] }
termination_by retries - attempt
decreasing_by
  simp only [shouldRetry, Bool.and_eq_true, decide_eq_true_eq] at h
  omega

/-! ### ApiService instance state and construction -/

/-- The `AuthTokens` record (all fields optional in the source type). -/
structure AuthTokens where
  accessToken : Option String := none
  refreshToken : Option String := none
  tokenType : Option String := none

/-- Per-call `RequestConfig` (the fields `makeRequest` reads). -/
structure RequestConfig where
  timeout : Option Nat := none
  retries : Option Nat := none

/-- The `ApiServiceConfig` constructor argument. -/
structure ApiServiceConfig where
  baseURL : List Char
  timeout : Option Nat := none
  defaultHeaders : List (String × String) := []
  retries : Option Nat := none
  retryDelay : Option Nat := none

/-- The private fields of an `ApiService` instance. Headers are an
association list where a later binding overrides an earlier one (the
observable semantics of JS object spread / property assignment). -/
structure ApiService where
  baseURL : List Char
  timeout : Nat
  defaultHeaders : List (String × String)
  retries : Nat
  retryDelay : Nat
  authTokens : Option AuthTokens

/-- Embedding of the `ApiService` constructor: `config.timeout || 10000`,
`config.retries || 3`, `config.retryDelay || 1000`, headers spread over a
JSON content-type default, no tokens. -/
def ApiService.ofConfig (config : ApiServiceConfig) : ApiService :=
  { baseURL := config.baseURL
    timeout := jsOrNat config.timeout 10000
    defaultHeaders := [("Content-Type", "application/json")] ++ config.defaultHeaders
    retries := jsOrNat config.retries 3
    retryDelay := jsOrNat config.retryDelay 1000
    authTokens := none }

/-- Last-binding-wins lookup in a header association list (the observable
content of a JS object built by spread and assignment). -/
def lookupHeader (hs : List (String × String)) (k : String) : Option String :=
  (hs.reverse.find? (fun p => p.1 = k)).map (fun p => p.2)

/-- Embedding of `ApiService.buildHeaders`: spread defaults then custom
headers, then assign `Authorization` to
`(tokenType || 'Bearer') + ' ' + accessToken` when a truthy access token
is set. -/
def buildHeaders (svc : ApiService) (customHeaders : List (String × String)) :
    List (String × String) :=
  let headers := svc.defaultHeaders ++ customHeaders
  match svc.authTokens with
  | some t =>
    match t.accessToken with
    | some a =>
      if a ≠ "" then
        let tokenType :=
          match t.tokenType with
          | some ty => if ty ≠ "" then ty else "Bearer"
          | none => "Bearer"
        headers ++ [("Authorization", tokenType ++ " " ++ a)]
      else headers
    | none => headers
  | none => headers

/-- Effective retry count of a call: `config?.retries || this.retries`. -/
def effectiveRetries (svc : ApiService) (config : Option RequestConfig) : Nat :=
  jsOrNat (config.bind (fun c => c.retries)) svc.retries

/-- Effective timeout of a call: `config?.timeout || this.timeout`. -/
def effectiveTimeout (svc : ApiService) (config : Option RequestConfig) : Nat :=
  jsOrNat (config.bind (fun c => c.timeout)) svc.timeout

/-- Embedding of a full `ApiService.makeRequest` call: the recursion
started at attempt 1 with the effective retry count and the instance
retry delay. -/
def makeRequest (svc : ApiService) (config : Option RequestConfig)
    (fetch : Nat → FetchOutcome) : ReqResult :=
  makeRequestAux (effectiveRetries svc config) svc.retryDelay fetch 1

/-! ### apiHelpers.handleApiError -/

/-- Embedding of `handleApiError` (the `switch` on `error.status`). The
source reads `error.message` untyped, so the result is a `Jval`. -/
def handleApiError (error : ApiError) : Jval :=
  if error.status = 400 then
    jsOr error.message (.jstr "Bad request. Please check your input.")
  else if error.status = 401 then
    .jstr "You are not authorized. Please log in again."
  else if error.status = 403 then
    .jstr "You do not have permission to perform this action."
  else if error.status = 404 then
    .jstr "The requested resource was not found."
  else if error.status = 422 then
    jsOr error.message (.jstr "Validation failed. Please check your input.")
  else if error.status = 429 then
    .jstr "Too many requests. Please try again later."
  else if error.status = 500 then
    .jstr "Server error. Please try again later."
  else if error.status = 503 then
    .jstr "Service unavailable. Please try again later."
  else
    jsOr error.message (.jstr "An unexpected error occurred.")

/-! ### URLSearchParams and apiHelpers.buildQueryString

`URLSearchParams` is modelled by its list of name/value string pairs; its
`toString` is the WHATWG application/x-www-form-urlencoded serializer:
ASCII alphanumerics and `*-._` pass through, space becomes `+`, every
other UTF-8 byte is percent-encoded. -/

/-- Characters the urlencoded serializer leaves as-is. -/
def isUrlencodedSafe (c : Char) : Bool :=
  (48 ≤ c.toNat && c.toNat ≤ 57) || (65 ≤ c.toNat && c.toNat ≤ 90) ||
    (97 ≤ c.toNat && c.toNat ≤ 122) ||
    (c = '*' || c = '-' || c = '.' || c = '_')

/-- Uppercase hexadecimal digit for a value below 16. -/
def hexDigit (n : Nat) : Char :=
  if n < 10 then Char.ofNat (48 + n) else Char.ofNat (55 + n)

/-- UTF-8 bytes of a code point. -/
def utf8Bytes (n : Nat) : List Nat :=
  if n < 128 then [n]
  else if n < 2048 then [192 + n / 64, 128 + n % 64]
  else if n < 65536 then [224 + n / 4096, 128 + (n / 64) % 64, 128 + n % 64]
  else [240 + n / 262144, 128 + (n / 4096) % 64, 128 + (n / 64) % 64, 128 + n % 64]

/-- Urlencoded serialization of one character. -/
def percentEncodeChar (c : Char) : String :=
  if isUrlencodedSafe c then String.singleton c
  else if c = ' ' then "+"
  else String.join ((utf8Bytes c.toNat).map fun b =>
    "%" ++ String.singleton (hexDigit (b / 16)) ++ String.singleton (hexDigit (b % 16)))

/-- Urlencoded serialization of a string. -/
def urlencode (s : String) : String :=
  String.join (s.data.map percentEncodeChar)

/-- The `toString` of a `URLSearchParams` holding the given pairs. -/
def searchParamsToString (pairs : List (String × String)) : String :=
  String.intercalate "&" (pairs.map fun p => urlencode p.1 ++ "=" ++ urlencode p.2)

/-- The `forEach` body of `buildQueryString`: skip `null`, `undefined`
and `''` (strict comparisons); append every element of an array; append
`String(value)` otherwise. -/
def queryAppend (acc : List (String × String)) (k : String) (v : Jval) :
    List (String × String) :=
  match v with
  | .jnull => acc
  | .jundef => acc
  | .jstr s => if s = "" then acc else acc ++ [(k, s)]
  | .jarr l => acc ++ l.map fun item => (k, jsToString item)
  | v => acc ++ [(k, jsToString v)]

/-- Embedding of `buildQueryString`: fold the entries in caller-supplied
order, serialize, and prefix `?` when non-empty. -/
def buildQueryString (params : List (String × Jval)) : String :=
  let queryParams := params.foldl (fun acc kv => queryAppend acc kv.1 kv.2) []
  let queryString := searchParamsToString queryParams
  if queryString ≠ "" then "?" ++ queryString else ""

/-! ### OrchestratorService.getServers -/

/-- The optional filter parameters of `getServers`. -/
structure GetServersParams where
  page : Option Nat := none
  limit : Option Nat := none
  status : Option String := none
  region : Option String := none

/-- Embedding of `OrchestratorService.getServers` up to the issued
request: the endpoint it passes to `orchestratorService.get` and the HTTP
method that call uses. Each field is appended only when truthy
(`if (params?.page) ...`: a missing parameter, `0` or `''` is skipped). -/
def getServersRequest (params : Option GetServersParams) : String × String :=
  let pagePairs := match params.bind (fun p => p.page) with
    | some n => if n ≠ 0 then [("page", toString n)] else []
    | none => []
  let limitPairs := match params.bind (fun p => p.limit) with
    | some n => if n ≠ 0 then [("limit", toString n)] else []
    | none => []
  let statusPairs := match params.bind (fun p => p.status) with
    | some s => if s ≠ "" then [("status", s)] else []
    | none => []
  let regionPairs := match params.bind (fun p => p.region) with
    | some s => if s ≠ "" then [("region", s)] else []
    | none => []
  let queryString :=
    searchParamsToString (pagePairs ++ limitPairs ++ statusPairs ++ regionPairs)
  let endpoint := if queryString ≠ "" then "/servers?" ++ queryString else "/servers"
  (endpoint, "GET")

/-! ### AuthService (authService.ts) and the auth context

The mutable world these operate on is the pair of client instances
(`apiService`, `authService`) plus browser `localStorage`, modelled as an
association list of typed stored values (`JSON.stringify` round-trips are
abstracted by storing the value itself). Network calls appear as
already-delivered results passed in as arguments. -/

/-- Set the instance token state (`ApiService.setAuthTokens`). -/
def ApiService.setAuthTokens (svc : ApiService) (tokens : AuthTokens) : ApiService :=
  { svc with authTokens := some tokens }

/-- Clear the instance token state (`ApiService.clearAuthTokens`). -/
def ApiService.clearAuthTokens (svc : ApiService) : ApiService :=
  { svc with authTokens := none }

/-- The `LoginResponse` payload of the login endpoint. -/
structure LoginResponse where
  token : String
  expiresAt : String
  tokenType : String

/-- A value held in `localStorage`. -/
inductive StoredValue where
  | tokens (t : AuthTokens)
  | loginData (r : LoginResponse)

/-- localStorage is a key/value map. -/
def Storage : Type := String → Option StoredValue

/-- localStorage `setItem` (replaces any existing binding of the key). -/
def setItem (store : Storage) (k : String) (v : StoredValue) : Storage :=
  fun q => if q = k then some v else store q

/-- localStorage `removeItem`. -/
def removeItem (store : Storage) (k : String) : Storage :=
  fun q => if q = k then none else store q

/-- localStorage `getItem`. -/
def getItem (store : Storage) (k : String) : Option StoredValue :=
  store k

/-- The world state the auth façade mutates: the two client instances and
localStorage. -/
structure AppState where
  apiService : ApiService
  authService : ApiService
  localStorage : Storage

/-- The `ApiResponse<LoginResponse>` envelope as the login code observes
it (`response.success && response.data`). -/
structure LoginApiResponse where
  data : Option LoginResponse
  status : Nat
  success : Bool

/-- The `authTokens` object `login` builds from the login payload:
`{accessToken: data.token, tokenType: data.tokenType || 'Bearer'}` (the
login server provides no refresh token). -/
def loginTokens (d : LoginResponse) : AuthTokens :=
  { accessToken := some d.token
    refreshToken := none
    tokenType := some (if d.tokenType ≠ "" then d.tokenType else "Bearer") }

/-- Embedding of the state effect of `AuthService.login`: on a successful
response with data, set the built token object on both clients and
persist `authTokens` and `loginResponse` to localStorage; otherwise leave
the world unchanged. -/
def AuthService.login (st : AppState) (response : LoginApiResponse) : AppState :=
  if response.success then
    match response.data with
    | some d =>
      { apiService := st.apiService.setAuthTokens (loginTokens d)
        authService := st.authService.setAuthTokens (loginTokens d)
        localStorage :=
          setItem (setItem st.localStorage "authTokens" (.tokens (loginTokens d)))
            "loginResponse" (.loginData d) }
    | none => st
  else st

/-- The envelope `logout` returns. -/
def logoutEnvelope : ApiResponse :=
  { data := .jundef, status := 200, success := true,
    message := .jstr "Logged out successfully" }

/-- Embedding of `AuthService.logout` (authService.ts): unconditionally
clear the tokens of both clients, remove the `authTokens` and
`loginResponse` storage entries, and return the success envelope. -/
def AuthService.logout (st : AppState) : AppState × ApiResponse :=
  ({ apiService := st.apiService.clearAuthTokens
     authService := st.authService.clearAuthTokens
     localStorage := removeItem (removeItem st.localStorage "authTokens") "loginResponse" },
   logoutEnvelope)

/-- Embedding of the `logout` of the generic auth-service variant bundled
in the repository (the one that first posts `/logout` inside
`try { ... } catch { console.warn(...) } finally { ... }`): whatever the
server call's outcome, the `finally` block clears both clients and the
`authTokens` entry, and the method returns the success envelope — a
failure of the server call is swallowed, never rethrown. -/
def AuthServiceTemplate.logout (st : AppState)
    (serverCall : Except ApiError ApiResponse) : AppState × Except ApiError ApiResponse :=
  match serverCall with
  | _ =>
    ({ apiService := st.apiService.clearAuthTokens
       authService := st.authService.clearAuthTokens
       localStorage := removeItem st.localStorage "authTokens" },
     .ok logoutEnvelope)

/-- The `ValidationResponse` payload of the validate endpoint. -/
structure ValidationResponse where
  message : String
  username : String
  isAuthenticated : Bool

/-- The `ApiResponse<ValidationResponse>` envelope as observed by
`validateToken` and the auth context. -/
structure ValidateApiResponse where
  data : Option ValidationResponse
  status : Nat
  success : Bool
  message : Jval

/-- The failed envelope `validateToken` substitutes for a 401 error. -/
def invalidTokenEnvelope : ValidateApiResponse :=
  { data := none, status := 401, success := false,
    message := .jstr "Token is invalid or expired" }

/-- Embedding of `AuthService.validateToken`: pass a delivered envelope
through; for a thrown error with `status === 401` return a failed
envelope instead of throwing; rethrow every other error. -/
def AuthService.validateToken (result : Except ApiError ValidateApiResponse) :
    Except ApiError ValidateApiResponse :=
  match result with
  | .ok env => .ok env
  | .error e =>
    if e.status = 401 then .ok invalidTokenEnvelope
    else .error e

/-- The `User` state of the auth context. -/
structure User where
  username : String
  isAuthenticated : Bool

/-- Embedding of the auth provider's `validateToken` reaction
(AuthContext.tsx): a successful envelope with data sets the user; a
failed envelope triggers `AuthService.logout` (silent local cleanup) and
clears the user; a thrown error is caught, logged and clears the user —
nothing is ever rethrown to the UI. -/
def AuthProvider.validateToken (st : AppState)
    (result : Except ApiError ValidateApiResponse) : AppState × Option User :=
  match AuthService.validateToken result with
  | .ok env =>
    match env.success, env.data with
    | true, some d => (st, some { username := d.username, isAuthenticated := d.isAuthenticated })
    | _, _ => ((AuthService.logout st).1, none)
  | .error _ => (st, none)

/-- The success envelope of a 201 response with an empty-object body
(used as a concrete instantiation). -/
def createdEnvelope : ApiResponse :=
  { data := Jval.jobj [], status := 201, success := true,
    message := (Jval.jobj []).getField "message" }

/-- The `TIMEOUT` error descriptor `handleError` produces for aborts. -/
def timeoutApiError : ApiError :=
  { message := .jstr "Request timeout", status := 408, code := .jstr "TIMEOUT",
    details := none }

/-- A concrete abort exception (used as a concrete instantiation). -/
def abortSample : ErrObj :=
  { name := "AbortError", message := "The operation was aborted.", response := none }

/-- A concrete HTTP 500 exception whose body carries an application error
code (used as a concrete instantiation). -/
def serverErrSample : ErrObj :=
  { name := "Error", message := "HTTP 500",
    response := some { status := 500, data := Jval.jobj [("code", Jval.jstr "E_SRV")] } }

/-- An app state with fresh clients and empty storage (used as a concrete
instantiation). -/
def initialAppState : AppState :=
  { apiService := ApiService.ofConfig { baseURL := [] }
    authService := ApiService.ofConfig { baseURL := [] }
    localStorage := fun _ => none }

/-- A concrete login payload (used as a concrete instantiation). -/
def sampleLoginResponse : LoginResponse :=
  { token := "tok123", expiresAt := "2025-01-01T00:00:00Z", tokenType := "Bearer" }

/-- A concrete successful login envelope (used as a concrete
instantiation). -/
def sampleLoginApiResponse : LoginApiResponse :=
  { data := some sampleLoginResponse, status := 200, success := true }

/-- A concrete 401 error descriptor (used as a concrete instantiation). -/
def unauthorizedErrSample : ApiError :=
  { message := .jstr "HTTP 401", status := 401, code := .jstr "API_ERROR", details := none }

/-- A concrete 400 error descriptor carrying a server-supplied message
(used as a concrete instantiation). -/
def badRequestWithMessage : ApiError :=
  { message := .jstr "Custom detail from server", status := 400, code := .jstr "E",
    details := none }

/-- A concrete 400 error descriptor with no usable message (used as a
concrete instantiation). -/
def badRequestPlain : ApiError :=
  { message := .jundef, status := 400, code := .jstr "E", details := none }

/-- The pairs one `buildQueryString` field contributes: none for `null`,
`undefined` or `''`, one per element for an array, one otherwise. -/
def queryPairsOf (kv : String × Jval) : List (String × String) :=
  match kv.2 with
  | .jnull => []
  | .jundef => []
  | .jstr s => if s = "" then [] else [(kv.1, s)]
  | .jarr l => l.map fun item => (kv.1, jsToString item)
  | v => [(kv.1, jsToString v)]

end LimeWebAdmin

namespace LimeWebAdmin

theorem endsWithSlash_append_slash (core : List Char) :
    endsWithSlash (core ++ ['/']) = true := by
  simp [endsWithSlash, List.getLast?_concat]

theorem startsWithSlash_cons (path : List Char) :
    startsWithSlash ('/' :: path) = true := by
  simp [startsWithSlash]

/-- Helper: buildURL on a base with no trailing slash and an endpoint with
no leading slash concatenates with exactly one slash. -/
theorem buildURL_clean (core path : List Char)
    (hc : endsWithSlash core = false) (hp : startsWithSlash path = false) :
    buildURL core path = core ++ ['/'] ++ path := by
  simp [buildURL, hc, hp]

/-- C5: for every base URL, with or without a trailing slash, and every
relative path, with or without a leading slash, `ApiService.buildURL`
produces the URL with exactly one separating slash between base and path
(`core` and `path` are the slash-free forms). -/
theorem c5_buildURL_single_separating_slash (core path : List Char)
    (hc : endsWithSlash core = false) (hp : startsWithSlash path = false) :
    buildURL core path = core ++ ['/'] ++ path ∧
    buildURL (core ++ ['/']) path = core ++ ['/'] ++ path ∧
    buildURL core ('/' :: path) = core ++ ['/'] ++ path ∧
    buildURL (core ++ ['/']) ('/' :: path) = core ++ ['/'] ++ path := by
  refine ⟨buildURL_clean core path hc hp, ?_, ?_, ?_⟩
  · simp [buildURL, endsWithSlash_append_slash, hp, List.dropLast_concat]
  · simp [buildURL, hc, startsWithSlash_cons]
  · simp [buildURL, endsWithSlash_append_slash, startsWithSlash_cons, List.dropLast_concat]

/-- Witness for C5 at a concrete base and path. -/
theorem c5_buildURL_single_separating_slash_witness :
    buildURL ['a'] ['b'] = ['a'] ++ ['/'] ++ ['b'] ∧
    buildURL (['a'] ++ ['/']) ['b'] = ['a'] ++ ['/'] ++ ['b'] ∧
    buildURL ['a'] ('/' :: ['b']) = ['a'] ++ ['/'] ++ ['b'] ∧
    buildURL (['a'] ++ ['/']) ('/' :: ['b']) = ['a'] ++ ['/'] ++ ['b'] :=
  c5_buildURL_single_separating_slash ['a'] ['b'] (by decide) (by decide)

/-! ### Lemmas about one attempt and the retry test -/

theorem attemptOnce_2xx (f : Nat → FetchOutcome) (a s : Nat) (dd : Jval)
    (hs : f a = .response s dd) (h : 200 ≤ s ∧ s ≤ 299) :
    attemptOnce f a =
      .ok { data := dd, status := s, success := true, message := dd.getField "message" } := by
  simp [attemptOnce, hs, h]

theorem attemptOnce_non2xx (f : Nat → FetchOutcome) (a s : Nat) (dd : Jval)
    (hs : f a = .response s dd) (h : ¬ (200 ≤ s ∧ s ≤ 299)) :
    attemptOnce f a =
      .error { name := "Error", message := "HTTP " ++ toString s,
               response := some { status := s, data := dd } } := by
  simp [attemptOnce, hs, h]

theorem isRetryableError_of_status (nm msg : String) (s : Nat) (dd : Jval)
    (hnm : nm ≠ "AbortError") (hs : s ≠ 0) (h5 : 500 ≤ s) :
    isRetryableError
      { name := nm, message := msg, response := some { status := s, data := dd } } = true := by
  simp [isRetryableError, hnm, hs, h5]

theorem shouldRetry_false_of_attempts (R a : Nat) (e : ErrObj) (h : ¬ a < R) :
    shouldRetry R a e = false := by
  simp [shouldRetry, h]

/-- Unfolding of `makeRequestAux` on a successful attempt. -/
theorem makeRequestAux_ok (R D : Nat) (f : Nat → FetchOutcome) (a : Nat)
    (env : ApiResponse) (h : attemptOnce f a = .ok env) :
    makeRequestAux R D f a = { outcome := .ok env, attempts := a, sleeps := [] } := by
  rw [makeRequestAux, h]

/-- Unfolding of `makeRequestAux` on a failed attempt that is retried. -/
theorem makeRequestAux_error_retry (R D : Nat) (f : Nat → FetchOutcome) (a : Nat)
    (e : ErrObj) (h : attemptOnce f a = .error e) (hr : shouldRetry R a e = true) :
    makeRequestAux R D f a =
      { outcome := (makeRequestAux R D f (a + 1)).outcome,
        attempts := (makeRequestAux R D f (a + 1)).attempts,
        sleeps := D * a :: (makeRequestAux R D f (a + 1)).sleeps } := by
  rw [makeRequestAux, h]
  dsimp only
  rw [dif_pos hr]

/-- Unfolding of `makeRequestAux` on a failed attempt that is not
retried. -/
theorem makeRequestAux_error_stop (R D : Nat) (f : Nat → FetchOutcome) (a : Nat)
    (e : ErrObj) (h : attemptOnce f a = .error e) (hr : shouldRetry R a e = false) :
    makeRequestAux R D f a =
      { outcome := .error (handleError e), attempts := a, sleeps := [] } := by
  rw [makeRequestAux, h]
  dsimp only
  rw [dif_neg]
  simp [hr]

/-- Trace of a `makeRequest` run whose server answers 503 on every
attempt: started at attempt `a ≤ R`, the run makes attempts `a..R`,
sleeps `D·a, D·(a+1), ..., D·(R-1)` and throws the classified last
error. -/
theorem makeRequestAux_const503 (R D : Nat) (f : Nat → FetchOutcome) (d : Nat → Jval)
    (hf : ∀ n, f n = .response 503 (d n)) :
    ∀ n a, R - a = n → 1 ≤ a → a ≤ R →
      makeRequestAux R D f a =
        { outcome := .error (handleError
            { name := "Error", message := "HTTP " ++ toString 503,
              response := some { status := 503, data := d R } }),
          attempts := R,
          sleeps := (List.range' a (R - a)).map fun k => D * k } := by
  intro n
  induction n with
  | zero =>
    intro a h0 _ hR
    have haR : a = R := by omega
    subst haR
    rw [makeRequestAux_error_stop a D f a _ (attemptOnce_non2xx f a 503 (d a) (hf a) (by omega))
      (shouldRetry_false_of_attempts a a _ (by omega))]
    simp
  | succ n ih =>
    intro a h0 h1 hR
    have haR : a < R := by omega
    have hretry : shouldRetry R a
        { name := "Error", message := "HTTP " ++ toString 503,
          response := some { status := 503, data := d a } } = true := by
      simp [shouldRetry, haR,
        isRetryableError_of_status "Error" ("HTTP " ++ toString 503) 503 (d a)
          (by decide) (by omega) (by omega)]
    rw [makeRequestAux_error_retry R D f a _
      (attemptOnce_non2xx f a 503 (d a) (hf a) (by omega)) hretry]
    rw [ih (a + 1) (by omega) (by omega) (by omega)]
    have hr : R - a = n + 1 := h0
    rw [hr]
    have hrange : List.range' a (n + 1) = a :: List.range' (a + 1) n := rfl
    rw [hrange]
    have hn : R - (a + 1) = n := by omega
    rw [hn]
    simp

/-- Twice the sum of the linear-backoff delays `D·1, ..., D·m`. -/
theorem twice_sum_linear_backoff (D : Nat) :
    ∀ m, 2 * (((List.range' 1 m).map fun k => D * k).sum) = D * m * (m + 1) := by
  intro m
  induction m with
  | zero => simp
  | succ m ih =>
    rw [List.range'_concat]
    rw [List.map_append, List.sum_append]
    simp only [List.map_cons, List.map_nil, List.sum_cons, List.sum_nil, one_mul]
    calc 2 * ((((List.range' 1 m).map fun k => D * k).sum) + (D * (1 + m) + 0))
        = 2 * (((List.range' 1 m).map fun k => D * k).sum) + 2 * (D * (1 + m)) := by ring
      _ = D * m * (m + 1) + 2 * (D * (1 + m)) := by rw [ih]
      _ = D * (m + 1) * (m + 1 + 1) := by ring

/-- C1 counterexample: an `ApiService` configured with retry count 2 and
retry delay 5, against a server answering 503 on every attempt, makes 2
total attempts (not 2+1) and sleeps a total of 5 ms (not at least
5·(1+2)). -/
theorem c1_retry_count_counterexample :
    (makeRequest
        (ApiService.ofConfig { baseURL := [], retries := some 2, retryDelay := some 5 })
        none (fun _ => .response 503 (Jval.jobj []))).attempts = 2 ∧
    ¬ (makeRequest
        (ApiService.ofConfig { baseURL := [], retries := some 2, retryDelay := some 5 })
        none (fun _ => .response 503 (Jval.jobj []))).attempts = 2 + 1 ∧
    (makeRequest
        (ApiService.ofConfig { baseURL := [], retries := some 2, retryDelay := some 5 })
        none (fun _ => .response 503 (Jval.jobj []))).sleeps.sum = 5 ∧
    ¬ 5 * (1 + 2) ≤ (makeRequest
        (ApiService.ofConfig { baseURL := [], retries := some 2, retryDelay := some 5 })
        none (fun _ => .response 503 (Jval.jobj []))).sleeps.sum := by
  have h := makeRequestAux_const503 2 5 (fun _ => .response 503 (Jval.jobj []))
    (fun _ => Jval.jobj []) (fun _ => rfl) 1 1 rfl (by omega) (by omega)
  have hm : makeRequest
      (ApiService.ofConfig { baseURL := [], retries := some 2, retryDelay := some 5 })
      none (fun _ => .response 503 (Jval.jobj [])) =
      makeRequestAux 2 5 (fun _ => .response 503 (Jval.jobj [])) 1 := rfl
  rw [hm, h]
  refine ⟨rfl, by decide, by decide, by decide⟩

/-- C1 (amended): for an `ApiService` instance with retry count N ≥ 1 and
retry delay D, a server that returns HTTP 503 on every attempt causes
exactly N total attempts; the delays slept are D·1, D·2, ..., D·(N−1) in
order (delay before the k-th retry equals D·k), so the cumulative sleep
before the final error is D·(1+2+...+(N−1)); the run ends in a thrown
error. -/
theorem c1_linear_backoff_all_503 (svc : ApiService) (N D : Nat)
    (hN : svc.retries = N) (hD : svc.retryDelay = D) (h1 : 1 ≤ N)
    (f : Nat → FetchOutcome) (d : Nat → Jval)
    (hf : ∀ n, f n = .response 503 (d n)) :
    (makeRequest svc none f).attempts = N ∧
    (makeRequest svc none f).sleeps = (List.range' 1 (N - 1)).map (fun k => D * k) ∧
    2 * (makeRequest svc none f).sleeps.sum = D * (N - 1) * N ∧
    ∃ e, (makeRequest svc none f).outcome = .error e := by
  have hm : makeRequest svc none f = makeRequestAux N D f 1 := by
    rw [makeRequest]
    have h2 : effectiveRetries svc none = N := by rw [← hN]; rfl
    rw [h2, hD]
  have h := makeRequestAux_const503 N D f d hf (N - 1) 1 (by omega) (by omega) (by omega)
  rw [hm, h]
  refine ⟨rfl, rfl, ?_, ⟨_, rfl⟩⟩
  have hg := twice_sum_linear_backoff D (N - 1)
  have hns : N - 1 + 1 = N := by omega
  rw [hns] at hg
  exact hg

/-- Witness for C1 (amended) at N = 3, D = 100. -/
theorem c1_linear_backoff_all_503_witness :
    (makeRequest
        (ApiService.ofConfig { baseURL := [], retries := some 3, retryDelay := some 100 })
        none (fun _ => .response 503 (Jval.jobj []))).attempts = 3 ∧
    (makeRequest
        (ApiService.ofConfig { baseURL := [], retries := some 3, retryDelay := some 100 })
        none (fun _ => .response 503 (Jval.jobj []))).sleeps =
      (List.range' 1 (3 - 1)).map (fun k => 100 * k) ∧
    2 * (makeRequest
        (ApiService.ofConfig { baseURL := [], retries := some 3, retryDelay := some 100 })
        none (fun _ => .response 503 (Jval.jobj []))).sleeps.sum = 100 * (3 - 1) * 3 ∧
    ∃ e, (makeRequest
        (ApiService.ofConfig { baseURL := [], retries := some 3, retryDelay := some 100 })
        none (fun _ => .response 503 (Jval.jobj []))).outcome = .error e :=
  c1_linear_backoff_all_503
    (ApiService.ofConfig { baseURL := [], retries := some 3, retryDelay := some 100 })
    3 100 rfl rfl (by omega) (fun _ => .response 503 (Jval.jobj []))
    (fun _ => Jval.jobj []) (fun _ => rfl)

theorem shouldRetry_false_of_not_retryable (R a : Nat) (e : ErrObj)
    (h : isRetryableError e = false) : shouldRetry R a e = false := by
  simp [shouldRetry, h]

theorem isRetryableError_false_of_status (nm msg : String) (s : Nat) (dd : Jval)
    (hnm : nm ≠ "AbortError") (h5 : s < 500) :
    isRetryableError
      { name := nm, message := msg, response := some { status := s, data := dd } } = false := by
  have h : ¬ 500 ≤ s := by omega
  simp [isRetryableError, hnm, h]

/-- The attempt counter never moves backwards: a run started at attempt
`a` reports at least `a` attempts. -/
theorem makeRequestAux_attempts_ge (R D : Nat) (f : Nat → FetchOutcome) :
    ∀ n a, R - a = n → a ≤ (makeRequestAux R D f a).attempts := by
  intro n
  induction n with
  | zero =>
    intro a h0
    cases hat : attemptOnce f a with
    | ok env =>
      rw [makeRequestAux_ok R D f a env hat]
    | error e =>
      rw [makeRequestAux_error_stop R D f a e hat
        (shouldRetry_false_of_attempts R a e (by omega))]
  | succ n ih =>
    intro a h0
    cases hat : attemptOnce f a with
    | ok env =>
      rw [makeRequestAux_ok R D f a env hat]
    | error e =>
      by_cases hr : shouldRetry R a e = true
      · rw [makeRequestAux_error_retry R D f a e hat hr]
        have h2 := ih (a + 1) (by omega)
        show a ≤ (makeRequestAux R D f (a + 1)).attempts
        omega
      · rw [makeRequestAux_error_stop R D f a e hat (by simpa using hr)]

/-- C2: a `makeRequest` run retries its current attempt iff the attempt
failed with a retryable error (abort/timeout, or a truthy HTTP status
≥ 500) and the attempt number is below the effective retry count; a
retryable error is exactly an abort or a ≥500-status error; a 4xx
response is never retried — exactly one attempt, no sleep; the effective
retry count is the per-call override or the instance value, and an
instance built without a retry setting defaults to 3. -/
theorem c2_retry_decision :
    (∀ R D f a, a < (makeRequestAux R D f a).attempts ↔
        ∃ e, attemptOnce f a = .error e ∧ a < R ∧ isRetryableError e = true) ∧
    (∀ e : ErrObj, isRetryableError e = true ↔
        (e.name = "AbortError" ∨
          ∃ r, e.response = some r ∧ r.status ≠ 0 ∧ 500 ≤ r.status)) ∧
    (∀ svc config f s dd, 400 ≤ s → s ≤ 499 → f 1 = .response s dd →
        (makeRequest svc config f).attempts = 1 ∧ (makeRequest svc config f).sleeps = []) ∧
    (∀ svc config, effectiveRetries svc config =
        jsOrNat (config.bind fun c => c.retries) svc.retries) ∧
    (∀ b, (ApiService.ofConfig { baseURL := b }).retries = 3) := by
  refine ⟨?_, ?_, ?_, fun _ _ => rfl, fun _ => rfl⟩
  · intro R D f a
    constructor
    · intro h
      cases hat : attemptOnce f a with
      | ok env =>
        rw [makeRequestAux_ok R D f a env hat] at h
        simp at h
      | error e =>
        by_cases hr : shouldRetry R a e = true
        · refine ⟨e, rfl, ?_, ?_⟩
          · have h2 := hr
            simp only [shouldRetry, Bool.and_eq_true, decide_eq_true_eq] at h2
            exact h2.1
          · have h2 := hr
            simp only [shouldRetry, Bool.and_eq_true, decide_eq_true_eq] at h2
            exact h2.2
        · rw [makeRequestAux_error_stop R D f a e hat (by simpa using hr)] at h
          simp at h
    · rintro ⟨e, hat, haR, hret⟩
      have hr : shouldRetry R a e = true := by
        simp [shouldRetry, haR, hret]
      rw [makeRequestAux_error_retry R D f a e hat hr]
      have h2 := makeRequestAux_attempts_ge R D f (R - (a + 1)) (a + 1) rfl
      show a < (makeRequestAux R D f (a + 1)).attempts
      omega
  · intro e
    constructor
    · intro h
      by_cases hnm : e.name = "AbortError"
      · exact Or.inl hnm
      · refine Or.inr ?_
        cases hre : e.response with
        | none => simp [isRetryableError, hnm, hre] at h
        | some r =>
          refine ⟨r, rfl, ?_, ?_⟩
          · simp only [isRetryableError, hre, Bool.or_eq_true, Bool.and_eq_true,
              decide_eq_true_eq] at h
            rcases h with h | h
            · exact absurd h hnm
            · exact h.1
          · simp only [isRetryableError, hre, Bool.or_eq_true, Bool.and_eq_true,
              decide_eq_true_eq] at h
            rcases h with h | h
            · exact absurd h hnm
            · exact h.2
    · rintro (h | ⟨r, hre, h0, h5⟩)
      · simp [isRetryableError, h]
      · simp [isRetryableError, hre, h0, h5]
  · intro svc config f s dd h4 h9 hf
    have hnon : ¬ (200 ≤ s ∧ s ≤ 299) := by omega
    have hat := attemptOnce_non2xx f 1 s dd hf hnon
    have hstop := makeRequestAux_error_stop (effectiveRetries svc config) svc.retryDelay
      f 1 _ hat
      (shouldRetry_false_of_not_retryable _ 1 _
        (isRetryableError_false_of_status "Error" ("HTTP " ++ toString s) s dd
          (by decide) (by omega)))
    rw [makeRequest, hstop]
    exact ⟨rfl, rfl⟩

/-- Witness for C2: a 404 on the first attempt leads to exactly one
attempt and no sleep. -/
theorem c2_retry_decision_witness :
    (makeRequest (ApiService.ofConfig { baseURL := [] }) none
        (fun _ => .response 404 (Jval.jobj []))).attempts = 1 ∧
    (makeRequest (ApiService.ofConfig { baseURL := [] }) none
        (fun _ => .response 404 (Jval.jobj []))).sleeps = [] :=
  c2_retry_decision.2.2.1 (ApiService.ofConfig { baseURL := [] }) none
    (fun _ => .response 404 (Jval.jobj [])) 404 (Jval.jobj [])
    (by omega) (by omega) rfl

/-- A successful attempt yields an envelope with `success = true` and a
status in the 200–299 range. -/
theorem attemptOnce_ok_inv (f : Nat → FetchOutcome) (b : Nat) (env : ApiResponse)
    (h : attemptOnce f b = .ok env) :
    env.success = true ∧ 200 ≤ env.status ∧ env.status ≤ 299 := by
  cases hf : f b with
  | response s dd =>
    by_cases h2 : 200 ≤ s ∧ s ≤ 299
    · rw [attemptOnce_2xx f b s dd hf h2] at h
      simp only [Except.ok.injEq] at h
      rw [← h]
      exact ⟨rfl, h2.1, h2.2⟩
    · rw [attemptOnce_non2xx f b s dd hf h2] at h
      simp at h
  | abort => simp [attemptOnce, hf] at h
  | networkFailure msg => simp [attemptOnce, hf] at h

/-- A returned envelope comes from some attempt whose fetch succeeded. -/
theorem makeRequestAux_ok_inv (R D : Nat) (f : Nat → FetchOutcome) :
    ∀ n a env, R - a = n → (makeRequestAux R D f a).outcome = .ok env →
      ∃ b, a ≤ b ∧ attemptOnce f b = .ok env := by
  intro n
  induction n with
  | zero =>
    intro a env h0 h
    cases hat : attemptOnce f a with
    | ok env0 =>
      rw [makeRequestAux_ok R D f a env0 hat] at h
      simp only [Except.ok.injEq] at h
      exact ⟨a, le_refl a, h ▸ hat⟩
    | error e =>
      rw [makeRequestAux_error_stop R D f a e hat
        (shouldRetry_false_of_attempts R a e (by omega))] at h
      simp at h
  | succ n ih =>
    intro a env h0 h
    cases hat : attemptOnce f a with
    | ok env0 =>
      rw [makeRequestAux_ok R D f a env0 hat] at h
      simp only [Except.ok.injEq] at h
      exact ⟨a, le_refl a, h ▸ hat⟩
    | error e =>
      by_cases hr : shouldRetry R a e = true
      · rw [makeRequestAux_error_retry R D f a e hat hr] at h
        simp only at h
        obtain ⟨b, hb, hbat⟩ := ih (a + 1) env (by omega) h
        exact ⟨b, by omega, hbat⟩
      · rw [makeRequestAux_error_stop R D f a e hat (by simpa using hr)] at h
        simp at h

/-- A thrown error is `handleError` of some attempt's raw failure. -/
theorem makeRequestAux_error_inv (R D : Nat) (f : Nat → FetchOutcome) :
    ∀ n a err, R - a = n → (makeRequestAux R D f a).outcome = .error err →
      ∃ b e, a ≤ b ∧ attemptOnce f b = .error e ∧ err = handleError e := by
  intro n
  induction n with
  | zero =>
    intro a err h0 h
    cases hat : attemptOnce f a with
    | ok env0 =>
      rw [makeRequestAux_ok R D f a env0 hat] at h
      simp at h
    | error e =>
      rw [makeRequestAux_error_stop R D f a e hat
        (shouldRetry_false_of_attempts R a e (by omega))] at h
      simp only [Except.error.injEq] at h
      exact ⟨a, e, le_refl a, hat, h.symm⟩
  | succ n ih =>
    intro a err h0 h
    cases hat : attemptOnce f a with
    | ok env0 =>
      rw [makeRequestAux_ok R D f a env0 hat] at h
      simp at h
    | error e =>
      by_cases hr : shouldRetry R a e = true
      · rw [makeRequestAux_error_retry R D f a e hat hr] at h
        simp only at h
        obtain ⟨b, e2, hb, hbat, herr⟩ := ih (a + 1) err (by omega) h
        exact ⟨b, e2, by omega, hbat, herr⟩
      · rw [makeRequestAux_error_stop R D f a e hat (by simpa using hr)] at h
        simp only [Except.error.injEq] at h
        exact ⟨a, e, le_refl a, hat, h.symm⟩

/-- C3: every envelope a `makeRequest` run returns has `success = true`
and a status in the 2xx success range; on failure the run throws an
error descriptor obtained by classifying some attempt's raw failure
(never a partial envelope); and an envelope produced from a delivered
response forces that response's status into the 2xx range and the
envelope to be exactly the success envelope of its body. -/
theorem c3_envelope_success_invariant :
    (∀ R D f a env, (makeRequestAux R D f a).outcome = .ok env →
        env.success = true ∧ 200 ≤ env.status ∧ env.status ≤ 299) ∧
    (∀ R D f a err, (makeRequestAux R D f a).outcome = .error err →
        ∃ b e, a ≤ b ∧ attemptOnce f b = .error e ∧ err = handleError e) ∧
    (∀ f b s dd env, f b = .response s dd → attemptOnce f b = .ok env →
        (200 ≤ s ∧ s ≤ 299) ∧
        env = { data := dd, status := s, success := true,
                message := dd.getField "message" }) := by
  refine ⟨?_, ?_, ?_⟩
  · intro R D f a env h
    obtain ⟨b, _, hbat⟩ := makeRequestAux_ok_inv R D f (R - a) a env rfl h
    exact attemptOnce_ok_inv f b env hbat
  · intro R D f a err h
    exact makeRequestAux_error_inv R D f (R - a) a err rfl h
  · intro f b s dd env hf h
    by_cases h2 : 200 ≤ s ∧ s ≤ 299
    · rw [attemptOnce_2xx f b s dd hf h2] at h
      simp only [Except.ok.injEq] at h
      exact ⟨h2, h.symm⟩
    · rw [attemptOnce_non2xx f b s dd hf h2] at h
      simp at h

/-- Witness for C3: a 201 response yields a success envelope. -/
theorem c3_envelope_success_invariant_witness :
    createdEnvelope.success = true ∧
    200 ≤ createdEnvelope.status ∧ createdEnvelope.status ≤ 299 :=
  c3_envelope_success_invariant.1 3 0 (fun _ => .response 201 (Jval.jobj [])) 1
    createdEnvelope
    (by rw [makeRequestAux_ok 3 0 (fun _ => .response 201 (Jval.jobj [])) 1
          createdEnvelope
          (attemptOnce_2xx (fun _ => .response 201 (Jval.jobj [])) 1 201 (Jval.jobj [])
            rfl (by omega))])

/-- C4: every surfaced error has one of three shapes — an abort yields
message `Request timeout`, status 408, code `TIMEOUT`; a failure with no
response yields status 0, code `NETWORK_ERROR`; a failure with an HTTP
response (truthy status) passes the server status through, takes the
body's truthy `code` and carries the decoded body as `details`; and a
request whose every attempt is aborted by the timeout surfaces exactly
the `TIMEOUT` (408) error. -/
theorem c4_error_shapes :
    (∀ e : ErrObj, e.name = "AbortError" → handleError e = timeoutApiError) ∧
    (∀ e : ErrObj, e.name ≠ "AbortError" → e.response = none →
        (handleError e).status = 0 ∧ (handleError e).code = .jstr "NETWORK_ERROR" ∧
        (handleError e).details = none) ∧
    (∀ (e : ErrObj) (r : ErrResponse) (c : Jval), e.name ≠ "AbortError" →
        e.response = some r → r.status ≠ 0 →
        r.data.getField "code" = c → c.truthy = true →
        (handleError e).status = r.status ∧ (handleError e).code = c ∧
        (handleError e).details = some r.data) ∧
    (∀ svc config f, (∀ n, f n = .abort) →
        (makeRequest svc config f).outcome = .error timeoutApiError) := by
  refine ⟨?_, ?_, ?_, ?_⟩
  · intro e h
    simp [handleError, h, timeoutApiError]
  · intro e hnm hre
    simp [handleError, hnm, hre]
  · intro e r c hnm hre hs hc htr
    refine ⟨?_, ?_, ?_⟩
    · simp [handleError, hnm, hre, hs]
    · simp [handleError, hnm, hre, hc, jsOr, htr]
    · simp [handleError, hnm, hre]
  · intro svc config f hf
    have habort : ∀ b, attemptOnce f b = .error abortSample := by
      intro b
      simp [attemptOnce, hf b, abortSample]
    cases houtcome : (makeRequest svc config f).outcome with
    | ok env =>
      obtain ⟨b, _, hbat⟩ := makeRequestAux_ok_inv (effectiveRetries svc config)
        svc.retryDelay f (effectiveRetries svc config - 1) 1 env rfl houtcome
      rw [habort b] at hbat
      exact absurd hbat (by simp)
    | error err =>
      obtain ⟨b, e, _, hbat, herr⟩ := makeRequestAux_error_inv (effectiveRetries svc config)
        svc.retryDelay f (effectiveRetries svc config - 1) 1 err rfl houtcome
      rw [habort b] at hbat
      simp only [Except.error.injEq] at hbat
      have h2 : handleError abortSample = timeoutApiError := by
        simp [handleError, abortSample, timeoutApiError]
      rw [herr, ← hbat, h2]

/-- Witness for C4 at a concrete abort and a concrete 500 with body code. -/
theorem c4_error_shapes_witness :
    handleError abortSample = timeoutApiError ∧
    ((handleError serverErrSample).status = 500 ∧
      (handleError serverErrSample).code = .jstr "E_SRV" ∧
      (handleError serverErrSample).details =
        some (Jval.jobj [("code", Jval.jstr "E_SRV")])) :=
  ⟨c4_error_shapes.1 abortSample rfl,
    c4_error_shapes.2.2.1 serverErrSample
      { status := 500, data := Jval.jobj [("code", Jval.jstr "E_SRV")] }
      (.jstr "E_SRV") (by decide) rfl (by decide) rfl rfl⟩

theorem lookupHeader_append_last (hs : List (String × String)) (k v : String) :
    lookupHeader (hs ++ [(k, v)]) k = some v := by
  simp [lookupHeader, List.reverse_append]

/-- With a truthy access token set, `buildHeaders` carries an
`Authorization` header of the shape `tokenType + ' ' + accessToken`. -/
theorem buildHeaders_with_token (svc : ApiService) (tok : AuthTokens) (a ty : String)
    (htok : svc.authTokens = some tok) (hacc : tok.accessToken = some a) (ha : a ≠ "")
    (hty : tok.tokenType = some ty) (htyne : ty ≠ "")
    (custom : List (String × String)) :
    lookupHeader (buildHeaders svc custom) "Authorization" = some (ty ++ " " ++ a) := by
  simp only [buildHeaders, htok, hacc, hty]
  rw [if_pos ha, if_pos htyne]
  exact lookupHeader_append_last _ _ _

/-- C6: a successful login installs the returned token (token type
defaulting to `Bearer`) on both client instances, makes every subsequent
call through either client carry an `Authorization` header equal to
`tokenType + ' ' + accessToken`, and persists the token pair and login
payload to localStorage; logout clears both clients and both storage
entries unconditionally and returns the success envelope; and the bundled
generic variant's logout swallows any server-call outcome, still clearing
both clients and the stored tokens. -/
theorem c6_login_logout_effects (st : AppState) (resp : LoginApiResponse)
    (d : LoginResponse) (hs : resp.success = true) (hd : resp.data = some d)
    (ht : d.token ≠ "") :
    ((AuthService.login st resp).apiService.authTokens = some (loginTokens d) ∧
      (AuthService.login st resp).authService.authTokens = some (loginTokens d) ∧
      (loginTokens d).accessToken = some d.token ∧
      (loginTokens d).tokenType =
        some (if d.tokenType ≠ "" then d.tokenType else "Bearer")) ∧
    (getItem (AuthService.login st resp).localStorage "authTokens" =
        some (.tokens (loginTokens d)) ∧
      getItem (AuthService.login st resp).localStorage "loginResponse" =
        some (.loginData d)) ∧
    (∀ custom, lookupHeader
        (buildHeaders (AuthService.login st resp).apiService custom) "Authorization" =
      some ((if d.tokenType ≠ "" then d.tokenType else "Bearer") ++ " " ++ d.token)) ∧
    (∀ custom, lookupHeader
        (buildHeaders (AuthService.login st resp).authService custom) "Authorization" =
      some ((if d.tokenType ≠ "" then d.tokenType else "Bearer") ++ " " ++ d.token)) ∧
    (∀ st2 : AppState,
      (AuthService.logout st2).1.apiService.authTokens = none ∧
      (AuthService.logout st2).1.authService.authTokens = none ∧
      getItem (AuthService.logout st2).1.localStorage "authTokens" = none ∧
      getItem (AuthService.logout st2).1.localStorage "loginResponse" = none ∧
      (AuthService.logout st2).2 = logoutEnvelope) ∧
    (∀ (st2 : AppState) (serverCall : Except ApiError ApiResponse),
      (AuthServiceTemplate.logout st2 serverCall).2 = .ok logoutEnvelope ∧
      (AuthServiceTemplate.logout st2 serverCall).1.apiService.authTokens = none ∧
      (AuthServiceTemplate.logout st2 serverCall).1.authService.authTokens = none ∧
      getItem (AuthServiceTemplate.logout st2 serverCall).1.localStorage "authTokens" =
        none) := by
  have hT : (if d.tokenType ≠ "" then d.tokenType else "Bearer") ≠ "" := by
    by_cases h : d.tokenType = ""
    · simp [h]
    · simp [h]
  have hlogin : AuthService.login st resp =
      { apiService := st.apiService.setAuthTokens (loginTokens d)
        authService := st.authService.setAuthTokens (loginTokens d)
        localStorage :=
          setItem (setItem st.localStorage "authTokens" (.tokens (loginTokens d)))
            "loginResponse" (.loginData d) } := by
    rw [AuthService.login, hd]
    simp [hs]
  refine ⟨⟨?_, ?_, rfl, rfl⟩, ⟨?_, ?_⟩, ?_, ?_, ?_, ?_⟩
  · rw [hlogin]; rfl
  · rw [hlogin]; rfl
  · rw [hlogin]
    simp [getItem, setItem]
  · rw [hlogin]
    simp [getItem, setItem]
  · intro custom
    rw [hlogin]
    exact buildHeaders_with_token _ _ _ _ rfl rfl ht rfl hT custom
  · intro custom
    rw [hlogin]
    exact buildHeaders_with_token _ _ _ _ rfl rfl ht rfl hT custom
  · intro st2
    refine ⟨rfl, rfl, ?_, ?_, rfl⟩
    · simp [AuthService.logout, getItem, removeItem]
    · simp [AuthService.logout, getItem, removeItem]
  · intro st2 serverCall
    refine ⟨rfl, rfl, rfl, ?_⟩
    simp [AuthServiceTemplate.logout, getItem, removeItem]

/-- Witness for C6 at a concrete state and login response. -/
theorem c6_login_logout_effects_witness :
    ((AuthService.login initialAppState sampleLoginApiResponse).apiService.authTokens =
        some (loginTokens sampleLoginResponse) ∧
      (AuthService.login initialAppState sampleLoginApiResponse).authService.authTokens =
        some (loginTokens sampleLoginResponse) ∧
      (loginTokens sampleLoginResponse).accessToken = some sampleLoginResponse.token ∧
      (loginTokens sampleLoginResponse).tokenType =
        some (if sampleLoginResponse.tokenType ≠ ""
          then sampleLoginResponse.tokenType else "Bearer")) ∧
    (getItem (AuthService.login initialAppState sampleLoginApiResponse).localStorage
        "authTokens" = some (.tokens (loginTokens sampleLoginResponse)) ∧
      getItem (AuthService.login initialAppState sampleLoginApiResponse).localStorage
        "loginResponse" = some (.loginData sampleLoginResponse)) ∧
    (∀ custom, lookupHeader
        (buildHeaders (AuthService.login initialAppState sampleLoginApiResponse).apiService
          custom) "Authorization" =
      some ((if sampleLoginResponse.tokenType ≠ ""
        then sampleLoginResponse.tokenType else "Bearer") ++ " " ++
          sampleLoginResponse.token)) ∧
    (∀ custom, lookupHeader
        (buildHeaders (AuthService.login initialAppState sampleLoginApiResponse).authService
          custom) "Authorization" =
      some ((if sampleLoginResponse.tokenType ≠ ""
        then sampleLoginResponse.tokenType else "Bearer") ++ " " ++
          sampleLoginResponse.token)) ∧
    (∀ st2 : AppState,
      (AuthService.logout st2).1.apiService.authTokens = none ∧
      (AuthService.logout st2).1.authService.authTokens = none ∧
      getItem (AuthService.logout st2).1.localStorage "authTokens" = none ∧
      getItem (AuthService.logout st2).1.localStorage "loginResponse" = none ∧
      (AuthService.logout st2).2 = logoutEnvelope) ∧
    (∀ (st2 : AppState) (serverCall : Except ApiError ApiResponse),
      (AuthServiceTemplate.logout st2 serverCall).2 = .ok logoutEnvelope ∧
      (AuthServiceTemplate.logout st2 serverCall).1.apiService.authTokens = none ∧
      (AuthServiceTemplate.logout st2 serverCall).1.authService.authTokens = none ∧
      getItem (AuthServiceTemplate.logout st2 serverCall).1.localStorage "authTokens" =
        none) :=
  c6_login_logout_effects initialAppState sampleLoginApiResponse sampleLoginResponse
    rfl rfl (by decide)

/-- C7: `validateToken` never throws on a 401 — it returns the failed
envelope (success false, status 401); any error with another status is
rethrown unchanged; a delivered envelope passes through; and the auth
context reacts to a 401 by a silent local logout (cleared state, no user,
nothing rethrown). -/
theorem c7_validate_token_401_soft_failure :
    (∀ e : ApiError, e.status = 401 →
        AuthService.validateToken (.error e) = .ok invalidTokenEnvelope) ∧
    (∀ e : ApiError, e.status ≠ 401 →
        AuthService.validateToken (.error e) = .error e) ∧
    (∀ env, AuthService.validateToken (.ok env) = .ok env) ∧
    (invalidTokenEnvelope.success = false ∧ invalidTokenEnvelope.status = 401) ∧
    (∀ (st : AppState) (e : ApiError), e.status = 401 →
        AuthProvider.validateToken st (.error e) = ((AuthService.logout st).1, none)) := by
  refine ⟨?_, ?_, fun _ => rfl, ⟨rfl, rfl⟩, ?_⟩
  · intro e h
    simp [AuthService.validateToken, h]
  · intro e h
    simp [AuthService.validateToken, h]
  · intro st e h
    simp [AuthProvider.validateToken, AuthService.validateToken, h, invalidTokenEnvelope]

/-- Witness for C7 at a concrete 401 error and app state. -/
theorem c7_validate_token_401_soft_failure_witness :
    AuthService.validateToken (.error unauthorizedErrSample) = .ok invalidTokenEnvelope ∧
    AuthProvider.validateToken initialAppState (.error unauthorizedErrSample) =
      ((AuthService.logout initialAppState).1, none) :=
  ⟨c7_validate_token_401_soft_failure.1 unauthorizedErrSample rfl,
    c7_validate_token_401_soft_failure.2.2.2.2 initialAppState unauthorizedErrSample rfl⟩

/-- C8 counterexample: for status 400 the mapping is not a fixed message —
a server-supplied message passes through, differing from the fixed
fallback produced when no message is present. -/
theorem c8_fixed_message_counterexample :
    handleApiError badRequestWithMessage = .jstr "Custom detail from server" ∧
    handleApiError badRequestPlain = .jstr "Bad request. Please check your input." ∧
    Jval.jstr "Custom detail from server" ≠
      Jval.jstr "Bad request. Please check your input." := by
  refine ⟨rfl, rfl, ?_⟩
  intro h
  injection h with h2
  exact absurd h2 (by decide)

/-- C8 (amended): statuses 401, 403, 404, 429, 500 and 503 map to fixed
messages; 400 and 422 prefer the server-supplied message and fall back to
a fixed message; every other status falls back to the server-supplied
message or a generic string; and the eight per-status fallback messages
are pairwise distinct. -/
theorem c8_status_message_mapping :
    (∀ e : ApiError, e.status = 401 →
        handleApiError e = .jstr "You are not authorized. Please log in again.") ∧
    (∀ e : ApiError, e.status = 403 →
        handleApiError e = .jstr "You do not have permission to perform this action.") ∧
    (∀ e : ApiError, e.status = 404 →
        handleApiError e = .jstr "The requested resource was not found.") ∧
    (∀ e : ApiError, e.status = 429 →
        handleApiError e = .jstr "Too many requests. Please try again later.") ∧
    (∀ e : ApiError, e.status = 500 →
        handleApiError e = .jstr "Server error. Please try again later.") ∧
    (∀ e : ApiError, e.status = 503 →
        handleApiError e = .jstr "Service unavailable. Please try again later.") ∧
    (∀ e : ApiError, e.status = 400 →
        handleApiError e = jsOr e.message (.jstr "Bad request. Please check your input.")) ∧
    (∀ e : ApiError, e.status = 422 →
        handleApiError e = jsOr e.message (.jstr "Validation failed. Please check your input.")) ∧
    (∀ e : ApiError, e.status ≠ 400 → e.status ≠ 401 → e.status ≠ 403 →
        e.status ≠ 404 → e.status ≠ 422 → e.status ≠ 429 → e.status ≠ 500 →
        e.status ≠ 503 →
        handleApiError e = jsOr e.message (.jstr "An unexpected error occurred.")) ∧
    List.Pairwise (fun a b => a ≠ b)
      ["Bad request. Please check your input.",
       "You are not authorized. Please log in again.",
       "You do not have permission to perform this action.",
       "The requested resource was not found.",
       "Validation failed. Please check your input.",
       "Too many requests. Please try again later.",
       "Server error. Please try again later.",
       "Service unavailable. Please try again later."] := by
  refine ⟨?_, ?_, ?_, ?_, ?_, ?_, ?_, ?_, ?_, by decide⟩
  · intro e h
    simp [handleApiError, h]
  · intro e h
    simp [handleApiError, h]
  · intro e h
    simp [handleApiError, h]
  · intro e h
    simp [handleApiError, h]
  · intro e h
    simp [handleApiError, h]
  · intro e h
    simp [handleApiError, h]
  · intro e h
    simp [handleApiError, h]
  · intro e h
    simp [handleApiError, h]
  · intro e h400 h401 h403 h404 h422 h429 h500 h503
    simp [handleApiError, h400, h401, h403, h404, h422, h429, h500, h503]

/-- Witness for C8 (amended) at concrete 401 and 400 errors. -/
theorem c8_status_message_mapping_witness :
    handleApiError unauthorizedErrSample =
      .jstr "You are not authorized. Please log in again." ∧
    handleApiError badRequestWithMessage =
      jsOr badRequestWithMessage.message (.jstr "Bad request. Please check your input.") :=
  ⟨c8_status_message_mapping.1 unauthorizedErrSample rfl,
    c8_status_message_mapping.2.2.2.2.2.2.1 badRequestWithMessage rfl⟩

theorem queryAppend_eq_append (acc : List (String × String)) (k : String) (v : Jval) :
    queryAppend acc k v = acc ++ queryPairsOf (k, v) := by
  cases v with
  | jstr s =>
    by_cases h : s = ""
    · simp [queryAppend, queryPairsOf, h]
    · simp [queryAppend, queryPairsOf, h]
  | jnull => simp [queryAppend, queryPairsOf]
  | jundef => simp [queryAppend, queryPairsOf]
  | jarr l => simp [queryAppend, queryPairsOf]
  | jbool b => simp [queryAppend, queryPairsOf]
  | jnum n => simp [queryAppend, queryPairsOf]
  | jobj fields => simp [queryAppend, queryPairsOf]

theorem foldl_queryAppend (params : List (String × Jval)) :
    ∀ acc, params.foldl (fun acc kv => queryAppend acc kv.1 kv.2) acc =
      acc ++ params.flatMap queryPairsOf := by
  induction params with
  | nil => intro acc; simp
  | cons kv rest ih =>
    intro acc
    rw [List.foldl_cons, ih, queryAppend_eq_append]
    simp

/-- C9: `buildQueryString` serializes exactly the defined, non-empty
fields in caller-supplied order; on
`{page: 2, limit: 10, search: '', role: undefined}` it produces
`?page=2&limit=10` (omitting `search` and `role`); and `getServers` with
`{page: 1, limit: 20, status: 'online'}` issues a GET to
`/servers?page=1&limit=20&status=online`. -/
theorem c9_query_string_building :
    (∀ params, buildQueryString params =
        (if searchParamsToString (params.flatMap queryPairsOf) ≠ "" then
          "?" ++ searchParamsToString (params.flatMap queryPairsOf) else "")) ∧
    buildQueryString [("page", .jnum 2), ("limit", .jnum 10), ("search", .jstr ""),
      ("role", .jundef)] = "?page=2&limit=10" ∧
    getServersRequest
      (some { page := some 1, limit := some 20, status := some "online", region := none }) =
      ("/servers?page=1&limit=20&status=online", "GET") := by
  refine ⟨?_, ?_, ?_⟩
  · intro params
    rw [buildQueryString, foldl_queryAppend params []]
    simp
  · rfl
  · rfl

/-- C10: a 0 passed for `timeout`, `retries` or `retryDelay` in the
constructor, or a per-call `retries: 0` / `timeout: 0`, is falsy under
`||` defaulting and is replaced by the hardcoded or instance default, so
0 behaves exactly like leaving the field unset: retries cannot be
disabled and a zero timeout cannot be requested. -/
theorem c10_zero_config_is_unset :
    (∀ cfg : ApiServiceConfig, cfg.timeout = some 0 →
        (ApiService.ofConfig cfg).timeout = 10000) ∧
    (∀ cfg : ApiServiceConfig, cfg.retries = some 0 →
        (ApiService.ofConfig cfg).retries = 3) ∧
    (∀ cfg : ApiServiceConfig, cfg.retryDelay = some 0 →
        (ApiService.ofConfig cfg).retryDelay = 1000) ∧
    (∀ d : Nat, jsOrNat (some 0) d = jsOrNat none d) ∧
    (∀ (svc : ApiService) (c : RequestConfig), c.retries = some 0 →
        effectiveRetries svc (some c) = svc.retries) ∧
    (∀ (svc : ApiService) (c : RequestConfig), c.timeout = some 0 →
        effectiveTimeout svc (some c) = svc.timeout) ∧
    (∀ (svc : ApiService) (c : RequestConfig) (f : Nat → FetchOutcome),
        c.retries = some 0 → makeRequest svc (some c) f = makeRequest svc none f) := by
  refine ⟨?_, ?_, ?_, fun _ => rfl, ?_, ?_, ?_⟩
  · intro cfg h
    simp [ApiService.ofConfig, jsOrNat, h]
  · intro cfg h
    simp [ApiService.ofConfig, jsOrNat, h]
  · intro cfg h
    simp [ApiService.ofConfig, jsOrNat, h]
  · intro svc c h
    simp [effectiveRetries, jsOrNat, h]
  · intro svc c h
    simp [effectiveTimeout, jsOrNat, h]
  · intro svc c f h
    rw [makeRequest, makeRequest]
    have h2 : effectiveRetries svc (some c) = effectiveRetries svc none := by
      simp [effectiveRetries, jsOrNat, h]
    rw [h2]

/-- Witness for C10 at a config passing 0 for all three settings. -/
theorem c10_zero_config_is_unset_witness :
    (ApiService.ofConfig
      { baseURL := [], timeout := some 0, retries := some 0,
        retryDelay := some 0 }).timeout = 10000 ∧
    (ApiService.ofConfig
      { baseURL := [], timeout := some 0, retries := some 0,
        retryDelay := some 0 }).retries = 3 ∧
    (ApiService.ofConfig
      { baseURL := [], timeout := some 0, retries := some 0,
        retryDelay := some 0 }).retryDelay = 1000 :=
  ⟨c10_zero_config_is_unset.1 _ rfl, c10_zero_config_is_unset.2.1 _ rfl,
    c10_zero_config_is_unset.2.2.1 _ rfl⟩

end LimeWebAdmin
